import Mathlib

/-!
Verification of the Discord client of `go-github-discord-bridge`
(`internal/discord/client.go`).

The client is embedded shallowly:

* JSON documents are the inductive `Json` type; a response body is a `Json`
  value and request bodies are built as `Json` values, mirroring the byte
  slices that `json.Marshal` / `json.Unmarshal` produce and consume.
* The HTTP transport (`http.Client.Do`) is an environment
  `Env : HttpRequest → HttpResult`: for every request it either fails at
  transport level or yields a status code and a body.  The 10-second
  timeout of the Go transport is a real-time property and is not modelled;
  a timeout appears here as a transport failure.
* Each operation returns the Go function's result — the Go pair
  `(string, error)` becomes `String × Option DiscordError`, a bare
  `error` becomes `Option DiscordError` — together with the ordered list
  of HTTP requests the operation issued.
* `fmt.Errorf` error values become the structured `DiscordError`; the
  constructors keep the format-string context and carry the status code
  and raw response body exactly where the Go messages interpolate them.
* `json.Marshal` is mirrored per struct, including `omitempty` handling
  and field order; `json.Unmarshal` is mirrored for the two decoded
  response shapes, including Go's zero-value semantics for absent or
  `null` fields and its type errors on mismatched shapes.
-/

namespace DiscordBridge

/-- JSON documents, the wire format of all request and response bodies. -/
inductive Json where
  | null
  | bool (b : Bool)
  | num (n : Int)
  | str (s : String)
  | arr (elems : List Json)
  | obj (fields : List (String × Json))

/-- An HTTP request as built by `http.NewRequest` plus `Header.Set` calls:
method, absolute URL, headers in insertion order, optional JSON body. -/
structure HttpRequest where
  method : String
  url : String
  headers : List (String × String)
  body : Option Json

/-- The outcome of `httpClient.Do`: a transport-level failure, or a
response carrying a status code and the bytes `io.ReadAll` returns. -/
inductive HttpResult where
  | transportError
  | response (status : Nat) (body : Json)

/-- The HTTP transport: what the remote end answers to each request. -/
def Env : Type := HttpRequest → HttpResult

/-- `req.Header.Set(key, value)`: replace any existing entry for the key,
then record the new one. -/
def setHeader (hs : List (String × String)) (key value : String) :
    List (String × String) :=
  hs.filter (fun p => p.1 != key) ++ [(key, value)]

/-- First header value recorded for a key, if any. -/
def headerValue (req : HttpRequest) (key : String) : Option String :=
  (req.headers.find? (fun p => p.1 == key)).map (fun p => p.2)

/-- `const DiscordAPIBase = "https://discord.com/api/v10"`. -/
def DiscordAPIBase : String := "https://discord.com/api/v10"

/-- The `Client` struct: bot token and target forum channel id.  The
embedded `http.Client` carries no state beyond its timeout, which is not
modelled (see the module comment). -/
structure Client where
  token : String
  forumChannelID : String

/-- `NewClient`. -/
def NewClient (token forumChannelID : String) : Client :=
  { token := token, forumChannelID := forumChannelID }

/-- `ForumTag`: a forum tag, id assigned by Discord, name the repo name. -/
structure ForumTag where
  ID : String
  Name : String

/-- `ForumChannelResponse`: the channel resource, reduced to the decoded
`available_tags` list. -/
structure ForumChannelResponse where
  AvailableTags : List ForumTag

/-- `CreateThreadResponse`: the decoded thread-creation response. -/
structure CreateThreadResponse where
  ID : String
  Name : String

/-- `EmbedFooter`. -/
structure EmbedFooter where
  Text : String
  IconURL : String

/-- `EmbedField`. -/
structure EmbedField where
  Name : String
  Value : String
  Inline : Bool

/-- `Embed`: rich embed display data.  The Go `*EmbedFooter` pointer
becomes an `Option`. -/
structure Embed where
  Title : String
  Description : String
  URL : String
  Color : Int
  Fields : List EmbedField
  Timestamp : String
  Footer : Option EmbedFooter

/-- `ThreadMessage`: content and embeds of a message. -/
structure ThreadMessage where
  Content : String
  Embeds : List Embed

/-- `CreateThreadRequest`: body of the thread-creation request. -/
structure CreateThreadRequest where
  Name : String
  Message : ThreadMessage
  AppliedTags : List String

/-- `ArchiveThreadRequest`: body of the archive request. -/
structure ArchiveThreadRequest where
  Archived : Bool

/-- A string field tagged `omitempty`: omitted when it is the zero value. -/
def omitStr (key s : String) : List (String × Json) :=
  if s = "" then [] else [(key, Json.str s)]

/-- Marshal of `ForumTag`: both fields lack `omitempty`, so a tag built as
`ForumTag\x7bName: repoName\x7d` is serialized with its zero-value id. -/
def ForumTag.toJson (t : ForumTag) : Json :=
  Json.obj [("id", Json.str t.ID), ("name", Json.str t.Name)]

/-- Marshal of `EmbedFooter` (`icon_url` is `omitempty`). -/
def EmbedFooter.toJson (f : EmbedFooter) : Json :=
  Json.obj ([("text", Json.str f.Text)] ++ omitStr "icon_url" f.IconURL)

/-- Marshal of `EmbedField` (`inline` is `omitempty`). -/
def EmbedField.toJson (f : EmbedField) : Json :=
  Json.obj ([("name", Json.str f.Name), ("value", Json.str f.Value)] ++
    (if f.Inline then [("inline", Json.bool true)] else []))

/-- Marshal of `Embed`: every field is `omitempty`. -/
def Embed.toJson (e : Embed) : Json :=
  Json.obj (omitStr "title" e.Title ++ omitStr "description" e.Description ++
    omitStr "url" e.URL ++
    (if e.Color = 0 then [] else [("color", Json.num e.Color)]) ++
    (if e.Fields.isEmpty then []
     else [("fields", Json.arr (e.Fields.map EmbedField.toJson))]) ++
    omitStr "timestamp" e.Timestamp ++
    (match e.Footer with
     | none => []
     | some f => [("footer", f.toJson)]))

/-- Marshal of `ThreadMessage` (both fields `omitempty`). -/
def ThreadMessage.toJson (m : ThreadMessage) : Json :=
  Json.obj (omitStr "content" m.Content ++
    (if m.Embeds.isEmpty then []
     else [("embeds", Json.arr (m.Embeds.map Embed.toJson))]))

/-- Marshal of `CreateThreadRequest` (`applied_tags` is `omitempty`). -/
def CreateThreadRequest.toJson (r : CreateThreadRequest) : Json :=
  Json.obj ([("name", Json.str r.Name), ("message", r.Message.toJson)] ++
    (if r.AppliedTags.isEmpty then []
     else [("applied_tags", Json.arr (r.AppliedTags.map Json.str))]))

/-- Marshal of the local `PatchBody` struct of `GetOrCreateRepoTag`:
the full replacement tag catalog. -/
def marshalPatchBody (tags : List ForumTag) : Json :=
  Json.obj [("available_tags", Json.arr (tags.map ForumTag.toJson))]

/-- Marshal of `ArchiveThreadRequest`. -/
def ArchiveThreadRequest.toJson (r : ArchiveThreadRequest) : Json :=
  Json.obj [("archived", Json.bool r.Archived)]

/-- Look up a key in a decoded JSON object.  `encoding/json` lets a later
duplicate key overwrite an earlier one, hence the reverse. -/
def objLookup (fields : List (String × Json)) (key : String) : Option Json :=
  (fields.reverse.find? (fun p => p.1 == key)).map (fun p => p.2)

/-- Unmarshal of a `string` struct field: absent or `null` leaves the zero
value, a JSON string is taken verbatim, any other shape is a type error. -/
def decodeStringField (fields : List (String × Json)) (key : String) :
    Except String String :=
  match objLookup fields key with
  | none => Except.ok ""
  | some Json.null => Except.ok ""
  | some (Json.str s) => Except.ok s
  | some _ => Except.error ("cannot unmarshal value into string field " ++ key)

/-- Unmarshal of one `ForumTag`: `null` leaves the zero struct, an object
decodes its `id` and `name` string fields, anything else is a type error. -/
def decodeForumTag : Json → Except String ForumTag
  | Json.null => Except.ok { ID := "", Name := "" }
  | Json.obj fields => do
      let id ← decodeStringField fields "id"
      let name ← decodeStringField fields "name"
      Except.ok { ID := id, Name := name }
  | _ => Except.error "cannot unmarshal value into ForumTag"

/-- Unmarshal of a `[]ForumTag` field: `null` gives the nil slice. -/
def decodeTagList : Json → Except String (List ForumTag)
  | Json.null => Except.ok []
  | Json.arr elems => elems.mapM decodeForumTag
  | _ => Except.error "cannot unmarshal value into tag slice"

/-- `json.Unmarshal` into `ForumChannelResponse`: the body must be a JSON
object (or `null`); an absent or `null` tag list gives the empty list. -/
def decodeForumChannelResponse : Json → Except String ForumChannelResponse
  | Json.null => Except.ok { AvailableTags := [] }
  | Json.obj fields =>
      match objLookup fields "available_tags" with
      | none => Except.ok { AvailableTags := [] }
      | some v => (decodeTagList v).map (fun tags => { AvailableTags := tags })
  | _ => Except.error "cannot unmarshal value into ForumChannelResponse"

/-- `json.Unmarshal` into `CreateThreadResponse`: the body must be a JSON
object (or `null`); absent fields keep their zero value. -/
def decodeCreateThreadResponse : Json → Except String CreateThreadResponse
  | Json.null => Except.ok { ID := "", Name := "" }
  | Json.obj fields => do
      let id ← decodeStringField fields "id"
      let name ← decodeStringField fields "name"
      Except.ok { ID := id, Name := name }
  | _ => Except.error "cannot unmarshal value into CreateThreadResponse"

/-- The error values the client produces, with the `fmt.Errorf` context of
each call site.  `apiError` carries the status code and the raw response
body that the Go message interpolates verbatim. -/
inductive DiscordError where
  | transport (context : String)
  | apiError (context : String) (status : Nat) (body : Json)
  | decodeError (context : String)
  | tagCreatedButNotFound

/-- The channel URL `DiscordAPIBase/channels/forumChannelID` used by both
requests of `GetOrCreateRepoTag`. -/
def Client.channelURL (c : Client) : String :=
  DiscordAPIBase ++ "/channels/" ++ c.forumChannelID

/-- Headers after `Set("Authorization", "Bot "+token)`. -/
def Client.authHeaders (c : Client) : List (String × String) :=
  setHeader [] "Authorization" ("Bot " ++ c.token)

/-- Headers after additionally `Set("Content-Type", "application/json")`. -/
def Client.jsonHeaders (c : Client) : List (String × String) :=
  setHeader c.authHeaders "Content-Type" "application/json"

/-- The body-less GET fetching the channel resource. -/
def Client.fetchChannelRequest (c : Client) : HttpRequest :=
  { method := "GET", url := c.channelURL, headers := c.authHeaders,
    body := none }

/-- The PATCH replacing the channel's tag catalog. -/
def Client.patchTagsRequest (c : Client) (newTags : List ForumTag) :
    HttpRequest :=
  { method := "PATCH", url := c.channelURL, headers := c.jsonHeaders,
    body := some (marshalPatchBody newTags) }

/-- `GetOrCreateRepoTag`: fetch the channel, scan `available_tags` for
`repoName`, and if absent PATCH the catalog with the tag appended and
re-scan the response.  Returns the Go result pair and the request trace. -/
def Client.GetOrCreateRepoTag (c : Client) (env : Env) (repoName : String) :
    (String × Option DiscordError) × List HttpRequest :=
  let req := c.fetchChannelRequest
  match env req with
  | HttpResult.transportError =>
      (("", some (DiscordError.transport "failed to get channel")), [req])
  | HttpResult.response status body =>
    if status ≠ 200 then
      (("", some (DiscordError.apiError "discord API error" status body)), [req])
    else
      match decodeForumChannelResponse body with
      | Except.error _ =>
          (("", some (DiscordError.decodeError "failed to parse channel")), [req])
      | Except.ok channel =>
        match channel.AvailableTags.find? (fun tag => tag.Name == repoName) with
        | some tag => ((tag.ID, none), [req])
        | none =>
          let newTags := channel.AvailableTags ++ [{ ID := "", Name := repoName }]
          let patchReq := c.patchTagsRequest newTags
          match env patchReq with
          | HttpResult.transportError =>
              (("", some (DiscordError.transport "failed to patch channel")),
               [req, patchReq])
          | HttpResult.response pstatus pbody =>
            if pstatus ≠ 200 then
              (("", some (DiscordError.apiError "discord API error on patch"
                  pstatus pbody)), [req, patchReq])
            else
              match decodeForumChannelResponse pbody with
              | Except.error _ =>
                  (("", some (DiscordError.decodeError
                      "failed to parse updated channel")), [req, patchReq])
              | Except.ok updated =>
                match updated.AvailableTags.find?
                    (fun tag => tag.Name == repoName) with
                | some tag => ((tag.ID, none), [req, patchReq])
                | none =>
                    (("", some DiscordError.tagCreatedButNotFound),
                     [req, patchReq])

/-- The POST creating a forum thread. -/
def Client.createThreadRequest (c : Client) (title : String)
    (message : ThreadMessage) (tagIDs : List String) : HttpRequest :=
  { method := "POST",
    url := DiscordAPIBase ++ "/channels/" ++ c.forumChannelID ++ "/threads",
    headers := c.jsonHeaders,
    body := some (CreateThreadRequest.toJson
      { Name := title, Message := message, AppliedTags := tagIDs }) }

/-- `CreateThread`: POST the thread, expect 201, decode the new id. -/
def Client.CreateThread (c : Client) (env : Env) (title : String)
    (message : ThreadMessage) (tagIDs : List String) :
    (String × Option DiscordError) × List HttpRequest :=
  let req := c.createThreadRequest title message tagIDs
  match env req with
  | HttpResult.transportError =>
      (("", some (DiscordError.transport "failed to send request")), [req])
  | HttpResult.response status body =>
    if status ≠ 201 then
      (("", some (DiscordError.apiError "discord API error" status body)), [req])
    else
      match decodeCreateThreadResponse body with
      | Except.error _ =>
          (("", some (DiscordError.decodeError "failed to parse response")), [req])
      | Except.ok result => ((result.ID, none), [req])

/-- The POST sending a message to an existing thread. -/
def Client.postMessageRequest (c : Client) (threadID : String)
    (message : ThreadMessage) : HttpRequest :=
  { method := "POST",
    url := DiscordAPIBase ++ "/channels/" ++ threadID ++ "/messages",
    headers := c.jsonHeaders, body := some message.toJson }

/-- `PostMessage`: POST the message, accept 200 or 201; the response body
is only read to build the error on any other status. -/
def Client.PostMessage (c : Client) (env : Env) (threadID : String)
    (message : ThreadMessage) : Option DiscordError × List HttpRequest :=
  let req := c.postMessageRequest threadID message
  match env req with
  | HttpResult.transportError =>
      (some (DiscordError.transport "failed to send request"), [req])
  | HttpResult.response status body =>
    if status ≠ 200 ∧ status ≠ 201 then
      (some (DiscordError.apiError "discord API error" status body), [req])
    else (none, [req])

/-- The PATCH archiving a thread. -/
def Client.archiveThreadRequest (c : Client) (threadID : String) :
    HttpRequest :=
  { method := "PATCH", url := DiscordAPIBase ++ "/channels/" ++ threadID,
    headers := c.jsonHeaders,
    body := some (ArchiveThreadRequest.toJson { Archived := true }) }

/-- `ArchiveThread`: PATCH `archived: true`, expect 200. -/
def Client.ArchiveThread (c : Client) (env : Env) (threadID : String) :
    Option DiscordError × List HttpRequest :=
  let req := c.archiveThreadRequest threadID
  match env req with
  | HttpResult.transportError =>
      (some (DiscordError.transport "failed to send request"), [req])
  | HttpResult.response status body =>
    if status ≠ 200 then
      (some (DiscordError.apiError "discord API error" status body), [req])
    else (none, [req])

/-- Number of requests with a given method in a trace. -/
def countMethod (trace : List HttpRequest) (m : String) : Nat :=
  (trace.filter (fun r => r.method == m)).length

/-- Field of a JSON object, `none` when the document is not an object or
lacks the key. -/
def jsonField (j : Json) (key : String) : Option Json :=
  match j with
  | Json.obj fields => objLookup fields key
  | _ => none

/-! ### Run equations for `GetOrCreateRepoTag`

One lemma per leaf of the control flow, shared by the claim theorems. -/

lemma run_fetch_transport (c : Client) (env : Env) (repoName : String)
    (h : env c.fetchChannelRequest = HttpResult.transportError) :
    c.GetOrCreateRepoTag env repoName =
      (("", some (DiscordError.transport "failed to get channel")),
       [c.fetchChannelRequest]) := by
  simp only [Client.GetOrCreateRepoTag, h]

lemma run_fetch_status (c : Client) (env : Env) (repoName : String)
    (status : Nat) (body : Json)
    (h : env c.fetchChannelRequest = HttpResult.response status body)
    (hs : status ≠ 200) :
    c.GetOrCreateRepoTag env repoName =
      (("", some (DiscordError.apiError "discord API error" status body)),
       [c.fetchChannelRequest]) := by
  simp only [Client.GetOrCreateRepoTag, h]
  simp [hs]

lemma run_fetch_decode_error (c : Client) (env : Env) (repoName : String)
    (body : Json) (msg : String)
    (h : env c.fetchChannelRequest = HttpResult.response 200 body)
    (hdec : decodeForumChannelResponse body = Except.error msg) :
    c.GetOrCreateRepoTag env repoName =
      (("", some (DiscordError.decodeError "failed to parse channel")),
       [c.fetchChannelRequest]) := by
  simp only [Client.GetOrCreateRepoTag, h, hdec]
  simp

lemma run_fetch_found (c : Client) (env : Env) (repoName : String)
    (body : Json) (channel : ForumChannelResponse) (tag : ForumTag)
    (h : env c.fetchChannelRequest = HttpResult.response 200 body)
    (hdec : decodeForumChannelResponse body = Except.ok channel)
    (hfind : channel.AvailableTags.find? (fun t => t.Name == repoName) =
      some tag) :
    c.GetOrCreateRepoTag env repoName =
      ((tag.ID, none), [c.fetchChannelRequest]) := by
  simp only [Client.GetOrCreateRepoTag, h, hdec, hfind]
  simp

lemma run_patch_ok (c : Client) (env : Env) (repoName : String)
    (body : Json) (channel : ForumChannelResponse) (pbody : Json)
    (updated : ForumChannelResponse) (tag : ForumTag)
    (h : env c.fetchChannelRequest = HttpResult.response 200 body)
    (hdec : decodeForumChannelResponse body = Except.ok channel)
    (hfind : channel.AvailableTags.find? (fun t => t.Name == repoName) = none)
    (hp : env (c.patchTagsRequest
        (channel.AvailableTags ++ [{ ID := "", Name := repoName }])) =
      HttpResult.response 200 pbody)
    (hpdec : decodeForumChannelResponse pbody = Except.ok updated)
    (hpfind : updated.AvailableTags.find? (fun t => t.Name == repoName) =
      some tag) :
    c.GetOrCreateRepoTag env repoName =
      ((tag.ID, none),
       [c.fetchChannelRequest,
        c.patchTagsRequest
          (channel.AvailableTags ++ [{ ID := "", Name := repoName }])]) := by
  simp only [Client.GetOrCreateRepoTag, h, hdec, hfind, hp, hpdec, hpfind]
  simp

lemma run_patch_missing (c : Client) (env : Env) (repoName : String)
    (body : Json) (channel : ForumChannelResponse) (pbody : Json)
    (updated : ForumChannelResponse)
    (h : env c.fetchChannelRequest = HttpResult.response 200 body)
    (hdec : decodeForumChannelResponse body = Except.ok channel)
    (hfind : channel.AvailableTags.find? (fun t => t.Name == repoName) = none)
    (hp : env (c.patchTagsRequest
        (channel.AvailableTags ++ [{ ID := "", Name := repoName }])) =
      HttpResult.response 200 pbody)
    (hpdec : decodeForumChannelResponse pbody = Except.ok updated)
    (hpfind : updated.AvailableTags.find? (fun t => t.Name == repoName) =
      none) :
    c.GetOrCreateRepoTag env repoName =
      (("", some DiscordError.tagCreatedButNotFound),
       [c.fetchChannelRequest,
        c.patchTagsRequest
          (channel.AvailableTags ++ [{ ID := "", Name := repoName }])]) := by
  simp only [Client.GetOrCreateRepoTag, h, hdec, hfind, hp, hpdec, hpfind]
  simp

/-- Turn an existence hypothesis into the `find?` fact the scan uses. -/
lemma find?_isSome_of_name {tags : List ForumTag} {repoName : String}
    (hmem : ∃ t ∈ tags, t.Name = repoName) :
    (tags.find? (fun t => t.Name == repoName)).isSome := by
  rw [List.find?_isSome]
  obtain ⟨t, hmemt, hname⟩ := hmem
  exact ⟨t, hmemt, by simp [hname]⟩

/-- Absence of the name makes the scan come up empty. -/
lemma find?_eq_none_of_name {tags : List ForumTag} {repoName : String}
    (habs : ∀ t ∈ tags, t.Name ≠ repoName) :
    tags.find? (fun t => t.Name == repoName) = none := by
  rw [List.find?_eq_none]
  intro t hmemt
  simp [habs t hmemt]

/-- `countMethod` on the singleton fetch trace. -/
lemma countMethod_fetch (c : Client) (m : String) :
    countMethod [c.fetchChannelRequest] m = if ("GET" == m) then 1 else 0 := by
  by_cases hm : ("GET" == m) <;>
    simp [countMethod, Client.fetchChannelRequest, hm]

/-- `countMethod` on the fetch-then-patch trace. -/
lemma countMethod_fetch_patch (c : Client) (tags : List ForumTag) (m : String) :
    countMethod [c.fetchChannelRequest, c.patchTagsRequest tags] m =
      (if ("GET" == m) then 1 else 0) + (if ("PATCH" == m) then 1 else 0) := by
  by_cases h1 : ("GET" == m) <;> by_cases h2 : ("PATCH" == m) <;>
    simp [countMethod, Client.fetchChannelRequest, Client.patchTagsRequest,
      h1, h2]

/-- C1: if the fetched channel's available tags contain a tag named
`repoName` (exact, case-sensitive match), `GetOrCreateRepoTag` issues
exactly one GET and no PATCH and returns that existing tag's id. -/
theorem getOrCreateRepoTag_existing_tag (c : Client) (env : Env)
    (repoName : String) (body : Json) (channel : ForumChannelResponse)
    (hfetch : env c.fetchChannelRequest = HttpResult.response 200 body)
    (hdec : decodeForumChannelResponse body = Except.ok channel)
    (hmem : ∃ t ∈ channel.AvailableTags, t.Name = repoName) :
    countMethod (c.GetOrCreateRepoTag env repoName).2 "GET" = 1 ∧
    countMethod (c.GetOrCreateRepoTag env repoName).2 "PATCH" = 0 ∧
    ∃ t ∈ channel.AvailableTags, t.Name = repoName ∧
      c.GetOrCreateRepoTag env repoName = ((t.ID, none), [c.fetchChannelRequest]) := by
  obtain ⟨tag, hfind⟩ :=
    Option.isSome_iff_exists.mp (find?_isSome_of_name hmem)
  have hrun := run_fetch_found c env repoName body channel tag hfetch hdec hfind
  refine ⟨?_, ?_, tag, List.mem_of_find?_eq_some hfind, ?_, hrun⟩
  · rw [hrun]; simp [countMethod_fetch]
  · rw [hrun]; simp [countMethod_fetch]
  · have := List.find?_some hfind
    simpa using this

/-- C2: if `repoName` is absent from the fetched tag list,
`GetOrCreateRepoTag` issues exactly one GET and one PATCH; the PATCH body
is the fetched list with a tag of name `repoName` and zero-value id
appended, under the `available_tags` key; and the returned id is the one
the update response assigns to the tag of that name. -/
theorem getOrCreateRepoTag_creates_tag (c : Client) (env : Env)
    (repoName : String) (body : Json) (channel : ForumChannelResponse)
    (pbody : Json) (updated : ForumChannelResponse)
    (hfetch : env c.fetchChannelRequest = HttpResult.response 200 body)
    (hdec : decodeForumChannelResponse body = Except.ok channel)
    (habs : ∀ t ∈ channel.AvailableTags, t.Name ≠ repoName)
    (hp : env (c.patchTagsRequest
        (channel.AvailableTags ++ [{ ID := "", Name := repoName }])) =
      HttpResult.response 200 pbody)
    (hpdec : decodeForumChannelResponse pbody = Except.ok updated)
    (hpmem : ∃ t ∈ updated.AvailableTags, t.Name = repoName) :
    countMethod (c.GetOrCreateRepoTag env repoName).2 "GET" = 1 ∧
    countMethod (c.GetOrCreateRepoTag env repoName).2 "PATCH" = 1 ∧
    (c.patchTagsRequest
        (channel.AvailableTags ++ [{ ID := "", Name := repoName }])).body =
      some (Json.obj [("available_tags",
        Json.arr ((channel.AvailableTags ++
          [({ ID := "", Name := repoName } : ForumTag)]).map
            ForumTag.toJson))]) ∧
    ∃ t ∈ updated.AvailableTags, t.Name = repoName ∧
      c.GetOrCreateRepoTag env repoName =
        ((t.ID, none),
         [c.fetchChannelRequest,
          c.patchTagsRequest
            (channel.AvailableTags ++ [{ ID := "", Name := repoName }])]) := by
  obtain ⟨tag, hpfind⟩ :=
    Option.isSome_iff_exists.mp (find?_isSome_of_name hpmem)
  have hrun := run_patch_ok c env repoName body channel pbody updated tag
    hfetch hdec (find?_eq_none_of_name habs) hp hpdec hpfind
  refine ⟨?_, ?_, rfl, tag, List.mem_of_find?_eq_some hpfind, ?_, hrun⟩
  · rw [hrun]; simp [countMethod_fetch_patch]
  · rw [hrun]; simp [countMethod_fetch_patch]
  · have := List.find?_some hpfind
    simpa using this

/-- C3: if the update succeeds with status 200 and a decodable body, but
the updated tag list still has no tag named `repoName`, the operation
returns the empty id together with the tag-created-but-not-found error. -/
theorem getOrCreateRepoTag_update_missing_tag (c : Client) (env : Env)
    (repoName : String) (body : Json) (channel : ForumChannelResponse)
    (pbody : Json) (updated : ForumChannelResponse)
    (hfetch : env c.fetchChannelRequest = HttpResult.response 200 body)
    (hdec : decodeForumChannelResponse body = Except.ok channel)
    (habs : ∀ t ∈ channel.AvailableTags, t.Name ≠ repoName)
    (hp : env (c.patchTagsRequest
        (channel.AvailableTags ++ [{ ID := "", Name := repoName }])) =
      HttpResult.response 200 pbody)
    (hpdec : decodeForumChannelResponse pbody = Except.ok updated)
    (hpabs : ∀ t ∈ updated.AvailableTags, t.Name ≠ repoName) :
    c.GetOrCreateRepoTag env repoName =
      (("", some DiscordError.tagCreatedButNotFound),
       [c.fetchChannelRequest,
        c.patchTagsRequest
          (channel.AvailableTags ++ [{ ID := "", Name := repoName }])]) :=
  run_patch_missing c env repoName body channel pbody updated
    hfetch hdec (find?_eq_none_of_name habs) hp hpdec
    (find?_eq_none_of_name hpabs)

/-- C8: if the fetch fails at transport level, returns a non-200 status,
or yields a body that does not decode, `GetOrCreateRepoTag` returns an
error, its trace is the single GET, and no PATCH was issued. -/
theorem getOrCreateRepoTag_read_phase_atomic (c : Client) (env : Env)
    (repoName : String)
    (h : env c.fetchChannelRequest = HttpResult.transportError ∨
      (∃ status body, env c.fetchChannelRequest =
          HttpResult.response status body ∧ status ≠ 200) ∨
      (∃ body msg, env c.fetchChannelRequest = HttpResult.response 200 body ∧
        decodeForumChannelResponse body = Except.error msg)) :
    (∃ e, (c.GetOrCreateRepoTag env repoName).1 = ("", some e)) ∧
    (c.GetOrCreateRepoTag env repoName).2 = [c.fetchChannelRequest] ∧
    countMethod (c.GetOrCreateRepoTag env repoName).2 "PATCH" = 0 := by
  have hcount : countMethod [c.fetchChannelRequest] "PATCH" = 0 := by
    simp [countMethod_fetch]
  rcases h with htr | ⟨status, body, hresp, hs⟩ | ⟨body, msg, hresp, hdec⟩
  · have hrun := run_fetch_transport c env repoName htr
    exact ⟨⟨_, by rw [hrun]⟩, by rw [hrun], by rw [hrun]; exact hcount⟩
  · have hrun := run_fetch_status c env repoName status body hresp hs
    exact ⟨⟨_, by rw [hrun]⟩, by rw [hrun], by rw [hrun]; exact hcount⟩
  · have hrun := run_fetch_decode_error c env repoName body msg hresp hdec
    exact ⟨⟨_, by rw [hrun]⟩, by rw [hrun], by rw [hrun]; exact hcount⟩

lemma run_patch_transport (c : Client) (env : Env) (repoName : String)
    (body : Json) (channel : ForumChannelResponse)
    (h : env c.fetchChannelRequest = HttpResult.response 200 body)
    (hdec : decodeForumChannelResponse body = Except.ok channel)
    (hfind : channel.AvailableTags.find? (fun t => t.Name == repoName) = none)
    (hp : env (c.patchTagsRequest
        (channel.AvailableTags ++ [{ ID := "", Name := repoName }])) =
      HttpResult.transportError) :
    c.GetOrCreateRepoTag env repoName =
      (("", some (DiscordError.transport "failed to patch channel")),
       [c.fetchChannelRequest,
        c.patchTagsRequest
          (channel.AvailableTags ++ [{ ID := "", Name := repoName }])]) := by
  simp only [Client.GetOrCreateRepoTag, h, hdec, hfind, hp]
  simp

lemma run_patch_status (c : Client) (env : Env) (repoName : String)
    (body : Json) (channel : ForumChannelResponse) (pstatus : Nat)
    (pbody : Json)
    (h : env c.fetchChannelRequest = HttpResult.response 200 body)
    (hdec : decodeForumChannelResponse body = Except.ok channel)
    (hfind : channel.AvailableTags.find? (fun t => t.Name == repoName) = none)
    (hp : env (c.patchTagsRequest
        (channel.AvailableTags ++ [{ ID := "", Name := repoName }])) =
      HttpResult.response pstatus pbody)
    (hps : pstatus ≠ 200) :
    c.GetOrCreateRepoTag env repoName =
      (("", some (DiscordError.apiError "discord API error on patch"
          pstatus pbody)),
       [c.fetchChannelRequest,
        c.patchTagsRequest
          (channel.AvailableTags ++ [{ ID := "", Name := repoName }])]) := by
  simp only [Client.GetOrCreateRepoTag, h, hdec, hfind, hp]
  simp [hps]

lemma run_patch_decode_error (c : Client) (env : Env) (repoName : String)
    (body : Json) (channel : ForumChannelResponse) (pbody : Json)
    (msg : String)
    (h : env c.fetchChannelRequest = HttpResult.response 200 body)
    (hdec : decodeForumChannelResponse body = Except.ok channel)
    (hfind : channel.AvailableTags.find? (fun t => t.Name == repoName) = none)
    (hp : env (c.patchTagsRequest
        (channel.AvailableTags ++ [{ ID := "", Name := repoName }])) =
      HttpResult.response 200 pbody)
    (hpdec : decodeForumChannelResponse pbody = Except.error msg) :
    c.GetOrCreateRepoTag env repoName =
      (("", some (DiscordError.decodeError "failed to parse updated channel")),
       [c.fetchChannelRequest,
        c.patchTagsRequest
          (channel.AvailableTags ++ [{ ID := "", Name := repoName }])]) := by
  simp only [Client.GetOrCreateRepoTag, h, hdec, hfind, hp, hpdec]
  simp

/-- The trace of `GetOrCreateRepoTag` is the fetch alone or the fetch
followed by one PATCH, whatever the environment answers. -/
lemma getOrCreateRepoTag_trace (c : Client) (env : Env) (repoName : String) :
    (c.GetOrCreateRepoTag env repoName).2 = [c.fetchChannelRequest] ∨
    ∃ tags, (c.GetOrCreateRepoTag env repoName).2 =
      [c.fetchChannelRequest, c.patchTagsRequest tags] := by
  cases henv : env c.fetchChannelRequest with
  | transportError =>
      rw [run_fetch_transport c env repoName henv]; exact Or.inl rfl
  | response status body =>
    by_cases hs : status = 200
    · subst hs
      cases hdec : decodeForumChannelResponse body with
      | error msg =>
          rw [run_fetch_decode_error c env repoName body msg henv hdec]
          exact Or.inl rfl
      | ok channel =>
        cases hfind : channel.AvailableTags.find?
            (fun t => t.Name == repoName) with
        | some tag =>
            rw [run_fetch_found c env repoName body channel tag henv hdec hfind]
            exact Or.inl rfl
        | none =>
          cases hp : env (c.patchTagsRequest
              (channel.AvailableTags ++ [{ ID := "", Name := repoName }])) with
          | transportError =>
              rw [run_patch_transport c env repoName body channel henv hdec
                hfind hp]
              exact Or.inr ⟨_, rfl⟩
          | response pstatus pbody =>
            by_cases hps : pstatus = 200
            · subst hps
              cases hpdec : decodeForumChannelResponse pbody with
              | error msg =>
                  rw [run_patch_decode_error c env repoName body channel pbody
                    msg henv hdec hfind hp hpdec]
                  exact Or.inr ⟨_, rfl⟩
              | ok updated =>
                cases hpfind : updated.AvailableTags.find?
                    (fun t => t.Name == repoName) with
                | some tag =>
                    rw [run_patch_ok c env repoName body channel pbody updated
                      tag henv hdec hfind hp hpdec hpfind]
                    exact Or.inr ⟨_, rfl⟩
                | none =>
                    rw [run_patch_missing c env repoName body channel pbody
                      updated henv hdec hfind hp hpdec hpfind]
                    exact Or.inr ⟨_, rfl⟩
            · rw [run_patch_status c env repoName body channel pstatus pbody
                henv hdec hfind hp hps]
              exact Or.inr ⟨_, rfl⟩
    · rw [run_fetch_status c env repoName status body henv hs]
      exact Or.inl rfl

/-- Every branch of `CreateThread` issues exactly its one POST. -/
lemma createThread_trace (c : Client) (env : Env) (title : String)
    (message : ThreadMessage) (tagIDs : List String) :
    (c.CreateThread env title message tagIDs).2 =
      [c.createThreadRequest title message tagIDs] := by
  simp only [Client.CreateThread]
  cases env (c.createThreadRequest title message tagIDs) with
  | transportError => rfl
  | response status body =>
    by_cases hs : status = 201
    · subst hs
      simp only [ne_eq, not_true_eq_false, if_false, reduceIte]
      cases decodeCreateThreadResponse body <;> rfl
    · simp [hs]

/-- Every branch of `PostMessage` issues exactly its one POST. -/
lemma postMessage_trace (c : Client) (env : Env) (threadID : String)
    (message : ThreadMessage) :
    (c.PostMessage env threadID message).2 =
      [c.postMessageRequest threadID message] := by
  simp only [Client.PostMessage]
  cases env (c.postMessageRequest threadID message) with
  | transportError => rfl
  | response status body =>
    by_cases h : status ≠ 200 ∧ status ≠ 201 <;> simp [h]

/-- Every branch of `ArchiveThread` issues exactly its one PATCH. -/
lemma archiveThread_trace (c : Client) (env : Env) (threadID : String) :
    (c.ArchiveThread env threadID).2 = [c.archiveThreadRequest threadID] := by
  simp only [Client.ArchiveThread]
  cases env (c.archiveThreadRequest threadID) with
  | transportError => rfl
  | response status body => by_cases h : status = 200 <;> simp [h]

/-- A request is well-formed when it carries the bot authorization header
and carries the JSON content type exactly when it has a body. -/
def goodHeaders (c : Client) (req : HttpRequest) : Prop :=
  headerValue req "Authorization" = some ("Bot " ++ c.token) ∧
  headerValue req "Content-Type" =
    (if req.body.isSome then some "application/json" else none)

lemma goodHeaders_fetch (c : Client) : goodHeaders c c.fetchChannelRequest := by
  refine ⟨?_, ?_⟩ <;>
    simp [goodHeaders, headerValue, Client.fetchChannelRequest,
      Client.authHeaders, setHeader, List.find?]

lemma goodHeaders_jsonReq (c : Client) (method url : String) (b : Json) :
    goodHeaders c
      { method := method, url := url, headers := c.jsonHeaders,
        body := some b } := by
  refine ⟨?_, ?_⟩ <;>
    simp [goodHeaders, headerValue, Client.jsonHeaders, Client.authHeaders,
      setHeader, List.find?]

/-- C7: every request any operation builds carries
`Authorization: Bot token`, and carries `Content-Type: application/json`
exactly when it has a body — in particular the body-less GET carries no
content type. -/
theorem requests_authenticated (c : Client) (env : Env)
    (repoName title threadID archiveID : String)
    (message pmessage : ThreadMessage) (tagIDs : List String) :
    (∀ req ∈ (c.GetOrCreateRepoTag env repoName).2, goodHeaders c req) ∧
    (∀ req ∈ (c.CreateThread env title message tagIDs).2, goodHeaders c req) ∧
    (∀ req ∈ (c.PostMessage env threadID pmessage).2, goodHeaders c req) ∧
    (∀ req ∈ (c.ArchiveThread env archiveID).2, goodHeaders c req) := by
  refine ⟨?_, ?_, ?_, ?_⟩
  · rcases getOrCreateRepoTag_trace c env repoName with htr | ⟨tags, htr⟩ <;>
      rw [htr] <;> intro req hreq <;> simp only [List.mem_cons,
        List.mem_singleton, List.not_mem_nil, or_false] at hreq
    · rw [hreq]; exact goodHeaders_fetch c
    · rcases hreq with hreq | hreq <;> rw [hreq]
      · exact goodHeaders_fetch c
      · exact goodHeaders_jsonReq c "PATCH" c.channelURL (marshalPatchBody tags)
  · rw [createThread_trace c env title message tagIDs]
    intro req hreq
    simp only [List.mem_singleton] at hreq
    rw [hreq]
    exact goodHeaders_jsonReq c "POST"
      (DiscordAPIBase ++ "/channels/" ++ c.forumChannelID ++ "/threads")
      (CreateThreadRequest.toJson
        { Name := title, Message := message, AppliedTags := tagIDs })
  · rw [postMessage_trace c env threadID pmessage]
    intro req hreq
    simp only [List.mem_singleton] at hreq
    rw [hreq]
    exact goodHeaders_jsonReq c "POST"
      (DiscordAPIBase ++ "/channels/" ++ threadID ++ "/messages")
      pmessage.toJson
  · rw [archiveThread_trace c env archiveID]
    intro req hreq
    simp only [List.mem_singleton] at hreq
    rw [hreq]
    exact goodHeaders_jsonReq c "PATCH"
      (DiscordAPIBase ++ "/channels/" ++ archiveID)
      (ArchiveThreadRequest.toJson { Archived := true })

/-- The linear scan returns the first element satisfying the predicate. -/
lemma find?_first {α : Type} (p : α → Bool) (pre post : List α) (t : α)
    (hpre : ∀ u ∈ pre, p u = false) (ht : p t = true) :
    (pre ++ t :: post).find? p = some t := by
  induction pre with
  | nil => simp [List.find?_cons, ht]
  | cons a l ih =>
      have ha : p a = false := hpre a (List.mem_cons_self a l)
      have hl : ∀ u ∈ l, p u = false := fun u hu => hpre u (List.mem_cons_of_mem a hu)
      simpa [List.find?_cons, ha] using ih hl

/-- C10: with duplicate tags of the same name in a tag list (as the
documented concurrent-creation race can leave behind), both the fetch
scan and the post-update re-scan of `GetOrCreateRepoTag` return the id of
the first matching tag in list order. -/
theorem getOrCreateRepoTag_first_match (c : Client) (repoName : String)
    (pre post : List ForumTag) (t : ForumTag)
    (hpre : ∀ u ∈ pre, u.Name ≠ repoName) (ht : t.Name = repoName)
    (hdup : ∃ u ∈ post, u.Name = repoName) :
    (∀ env body channel,
      env c.fetchChannelRequest = HttpResult.response 200 body →
      decodeForumChannelResponse body = Except.ok channel →
      channel.AvailableTags = pre ++ t :: post →
      (c.GetOrCreateRepoTag env repoName).1 = (t.ID, none)) ∧
    (∀ env body channel pbody updated,
      env c.fetchChannelRequest = HttpResult.response 200 body →
      decodeForumChannelResponse body = Except.ok channel →
      (∀ u ∈ channel.AvailableTags, u.Name ≠ repoName) →
      env (c.patchTagsRequest
          (channel.AvailableTags ++ [{ ID := "", Name := repoName }])) =
        HttpResult.response 200 pbody →
      decodeForumChannelResponse pbody = Except.ok updated →
      updated.AvailableTags = pre ++ t :: post →
      (c.GetOrCreateRepoTag env repoName).1 = (t.ID, none)) := by
  have hscan : (pre ++ t :: post).find? (fun u => u.Name == repoName) =
      some t := by
    refine find?_first _ pre post t (fun u hu => ?_) (by simp [ht])
    simp [hpre u hu]
  constructor
  · intro env body channel hfetch hdec htags
    have hrun := run_fetch_found c env repoName body channel t hfetch hdec
      (by rw [htags]; exact hscan)
    rw [hrun]
  · intro env body channel pbody updated hfetch hdec habs hp hpdec htags
    have hrun := run_patch_ok c env repoName body channel pbody updated t
      hfetch hdec (find?_eq_none_of_name habs) hp hpdec
      (by rw [htags]; exact hscan)
    rw [hrun]

/-- C4: `CreateThread` returns the decoded id on a 201 response, and on
any other status returns no id and the error carrying that status code
and the raw response body. -/
theorem createThread_status_handling (c : Client) (env : Env) (title : String)
    (message : ThreadMessage) (tagIDs : List String) (status : Nat)
    (body : Json)
    (henv : env (c.createThreadRequest title message tagIDs) =
      HttpResult.response status body) :
    (status = 201 → ∀ r : CreateThreadResponse,
      decodeCreateThreadResponse body = Except.ok r →
      c.CreateThread env title message tagIDs =
        ((r.ID, none), [c.createThreadRequest title message tagIDs])) ∧
    (status ≠ 201 →
      c.CreateThread env title message tagIDs =
        (("", some (DiscordError.apiError "discord API error" status body)),
         [c.createThreadRequest title message tagIDs])) := by
  constructor
  · intro hs r hdecr
    subst hs
    simp only [Client.CreateThread, henv, hdecr]
    simp
  · intro hs
    simp only [Client.CreateThread, henv]
    simp [hs]

/-- C5: `PostMessage` succeeds exactly on status 200 or 201, for any
response body (no payload is consumed on success); on any other status it
returns the error carrying that status code and the raw body. -/
theorem postMessage_status_handling (c : Client) (env : Env)
    (threadID : String) (message : ThreadMessage) (status : Nat) (body : Json)
    (henv : env (c.postMessageRequest threadID message) =
      HttpResult.response status body) :
    ((c.PostMessage env threadID message).1 = none ↔
      (status = 200 ∨ status = 201)) ∧
    (status ≠ 200 → status ≠ 201 →
      (c.PostMessage env threadID message).1 =
        some (DiscordError.apiError "discord API error" status body)) := by
  constructor
  · by_cases h200 : status = 200
    · have hrun : (c.PostMessage env threadID message).1 = none := by
        simp only [Client.PostMessage, henv]
        simp [h200]
      simp [hrun, h200]
    · by_cases h201 : status = 201
      · have hrun : (c.PostMessage env threadID message).1 = none := by
          simp only [Client.PostMessage, henv]
          simp [h201]
        simp [hrun, h201]
      · have hrun : (c.PostMessage env threadID message).1 =
            some (DiscordError.apiError "discord API error" status body) := by
          simp only [Client.PostMessage, henv]
          simp [h200, h201]
        simp [hrun, h200, h201]
  · intro h200 h201
    simp only [Client.PostMessage, henv]
    simp [h200, h201]

/-- C6: `ArchiveThread` sends the PATCH body `archived: true`, succeeds
exactly on status 200, and on any other status returns the error carrying
that status code and the raw body. -/
theorem archiveThread_status_handling (c : Client) (env : Env)
    (threadID : String) (status : Nat) (body : Json)
    (henv : env (c.archiveThreadRequest threadID) =
      HttpResult.response status body) :
    (c.archiveThreadRequest threadID).body =
      some (Json.obj [("archived", Json.bool true)]) ∧
    ((c.ArchiveThread env threadID).1 = none ↔ status = 200) ∧
    (status ≠ 200 →
      c.ArchiveThread env threadID =
        (some (DiscordError.apiError "discord API error" status body),
         [c.archiveThreadRequest threadID])) := by
  refine ⟨rfl, ?_, ?_⟩
  · by_cases h : status = 200
    · have hrun : (c.ArchiveThread env threadID).1 = none := by
        simp only [Client.ArchiveThread, henv]
        simp [h]
      simp [hrun, h]
    · have hrun : (c.ArchiveThread env threadID).1 =
          some (DiscordError.apiError "discord API error" status body) := by
        simp only [Client.ArchiveThread, henv]
        simp [h]
      simp [hrun, h]
  · intro h
    simp only [Client.ArchiveThread, henv]
    simp [h]

/-- C9 (amended): a 201 response whose body is a JSON object that decodes
into the thread-creation response shape and has no id field (or an empty
string id) makes `CreateThread` return the empty string with no error:
the id is not locally validated to be non-empty. -/
theorem createThread_id_not_validated (c : Client) (env : Env)
    (title : String) (message : ThreadMessage) (tagIDs : List String)
    (fields : List (String × Json)) (r : CreateThreadResponse)
    (henv : env (c.createThreadRequest title message tagIDs) =
      HttpResult.response 201 (Json.obj fields))
    (hid : objLookup fields "id" = none ∨
      objLookup fields "id" = some (Json.str ""))
    (hdec : decodeCreateThreadResponse (Json.obj fields) = Except.ok r) :
    (c.CreateThread env title message tagIDs).1 = ("", none) := by
  have hidf : decodeStringField fields "id" = Except.ok "" := by
    rcases hid with h | h <;> simp [decodeStringField, h]
  have hrid : r.ID = "" := by
    cases hname : decodeStringField fields "name" with
    | error m =>
        exfalso
        simp only [decodeCreateThreadResponse, hidf, hname] at hdec
        simp [Bind.bind, Except.bind] at hdec
    | ok name =>
        simp only [decodeCreateThreadResponse, hidf, hname] at hdec
        simp [Bind.bind, Except.bind] at hdec
        rw [← hdec]
  simp only [Client.CreateThread, henv, hdec]
  simp [hrid]

/-! ### Concrete fixtures -/

/-- A sample client. -/
def exClient : Client := NewClient "bot-token" "forum-chan"

/-- A sample message. -/
def exMessage : ThreadMessage := { Content := "body", Embeds := [] }

/-- An existing tag for the repository `repoA`. -/
def exTagA : ForumTag := { ID := "1", Name := "repoA" }

/-- A duplicate tag for `repoA` with another id. -/
def exTagA2 : ForumTag := { ID := "2", Name := "repoA" }

/-- Environment: every request is answered 200 with a catalog that already
holds `repoA`. -/
def exEnvTagA : Env := fun _ => HttpResult.response 200 (marshalPatchBody [exTagA])

/-- Environment: every request is answered 200 with a duplicated catalog. -/
def exEnvDup : Env :=
  fun _ => HttpResult.response 200 (marshalPatchBody [exTagA, exTagA2])

/-- Environment: the GET sees an empty catalog, the PATCH response carries
the newly assigned tag. -/
def exEnvAssign : Env := fun r =>
  if r.method == "GET" then HttpResult.response 200 (marshalPatchBody [])
  else HttpResult.response 200
    (marshalPatchBody [{ ID := "42", Name := "repoB" }])

/-- Environment: every response carries an empty catalog, so a created
tag never shows up. -/
def exEnvEmpty : Env := fun _ => HttpResult.response 200 (marshalPatchBody [])

/-- Environment: every request fails at transport level. -/
def exEnvDown : Env := fun _ => HttpResult.transportError

/-- Environment: 201 with a thread-creation response. -/
def exEnv201 : Env := fun _ => HttpResult.response 201
  (Json.obj [("id", Json.str "999"), ("name", Json.str "Issue 1")])

/-- Environment: 201 with a thread-creation response lacking the id. -/
def exEnv201NoId : Env := fun _ => HttpResult.response 201
  (Json.obj [("name", Json.str "Issue 1")])

/-- Environment: plain 200 with a null body. -/
def exEnv200 : Env := fun _ => HttpResult.response 200 Json.null

/-- Environment: 403 with a plain error body. -/
def exEnv403 : Env := fun _ => HttpResult.response 403 (Json.str "forbidden")

/-- Environment: 201 with an empty JSON array as body. -/
def exEnvArr : Env := fun _ => HttpResult.response 201 (Json.arr [])

/-- C1 witness. -/
theorem getOrCreateRepoTag_existing_tag_witness :
    countMethod (exClient.GetOrCreateRepoTag exEnvTagA "repoA").2 "GET" = 1 ∧
    countMethod (exClient.GetOrCreateRepoTag exEnvTagA "repoA").2 "PATCH" = 0 ∧
    ∃ t ∈ ({ AvailableTags := [exTagA] } : ForumChannelResponse).AvailableTags,
      t.Name = "repoA" ∧
      exClient.GetOrCreateRepoTag exEnvTagA "repoA" =
        ((t.ID, none), [exClient.fetchChannelRequest]) :=
  getOrCreateRepoTag_existing_tag exClient exEnvTagA "repoA"
    (marshalPatchBody [exTagA]) { AvailableTags := [exTagA] } rfl rfl
    ⟨exTagA, List.mem_cons_self _ _, rfl⟩

/-- C2 witness. -/
theorem getOrCreateRepoTag_creates_tag_witness :
    countMethod (exClient.GetOrCreateRepoTag exEnvAssign "repoB").2 "GET" = 1 ∧
    countMethod (exClient.GetOrCreateRepoTag exEnvAssign "repoB").2 "PATCH" = 1 ∧
    (exClient.patchTagsRequest
        (([] : List ForumTag) ++ [{ ID := "", Name := "repoB" }])).body =
      some (Json.obj [("available_tags",
        Json.arr ((([] : List ForumTag) ++
          [({ ID := "", Name := "repoB" } : ForumTag)]).map
            ForumTag.toJson))]) ∧
    ∃ t ∈ ({ AvailableTags := [{ ID := "42", Name := "repoB" }] } :
        ForumChannelResponse).AvailableTags,
      t.Name = "repoB" ∧
      exClient.GetOrCreateRepoTag exEnvAssign "repoB" =
        ((t.ID, none),
         [exClient.fetchChannelRequest,
          exClient.patchTagsRequest
            (([] : List ForumTag) ++ [{ ID := "", Name := "repoB" }])]) :=
  getOrCreateRepoTag_creates_tag exClient exEnvAssign "repoB"
    (marshalPatchBody []) { AvailableTags := [] }
    (marshalPatchBody [{ ID := "42", Name := "repoB" }])
    { AvailableTags := [{ ID := "42", Name := "repoB" }] }
    rfl rfl (by simp) rfl rfl
    ⟨{ ID := "42", Name := "repoB" }, List.mem_cons_self _ _, rfl⟩

/-- C3 witness. -/
theorem getOrCreateRepoTag_update_missing_tag_witness :
    exClient.GetOrCreateRepoTag exEnvEmpty "repoB" =
      (("", some DiscordError.tagCreatedButNotFound),
       [exClient.fetchChannelRequest,
        exClient.patchTagsRequest
          (([] : List ForumTag) ++ [{ ID := "", Name := "repoB" }])]) :=
  getOrCreateRepoTag_update_missing_tag exClient exEnvEmpty "repoB"
    (marshalPatchBody []) { AvailableTags := [] }
    (marshalPatchBody []) { AvailableTags := [] }
    rfl rfl (by simp) rfl rfl (by simp)

/-- C4 witness. -/
theorem createThread_status_handling_witness :
    exClient.CreateThread exEnv201 "Issue 1" exMessage [] =
      (("999", none), [exClient.createThreadRequest "Issue 1" exMessage []]) ∧
    exClient.CreateThread exEnv403 "Issue 1" exMessage [] =
      (("", some (DiscordError.apiError "discord API error" 403
          (Json.str "forbidden"))),
       [exClient.createThreadRequest "Issue 1" exMessage []]) :=
  ⟨(createThread_status_handling exClient exEnv201 "Issue 1" exMessage [] 201
      (Json.obj [("id", Json.str "999"), ("name", Json.str "Issue 1")])
      rfl).1 rfl { ID := "999", Name := "Issue 1" } rfl,
   (createThread_status_handling exClient exEnv403 "Issue 1" exMessage [] 403
      (Json.str "forbidden") rfl).2 (by decide)⟩

/-- C5 witness. -/
theorem postMessage_status_handling_witness :
    ((exClient.PostMessage exEnv200 "999" exMessage).1 = none ↔
      ((200 : Nat) = 200 ∨ (200 : Nat) = 201)) ∧
    (exClient.PostMessage exEnv403 "999" exMessage).1 =
      some (DiscordError.apiError "discord API error" 403
        (Json.str "forbidden")) :=
  ⟨(postMessage_status_handling exClient exEnv200 "999" exMessage 200
      Json.null rfl).1,
   (postMessage_status_handling exClient exEnv403 "999" exMessage 403
      (Json.str "forbidden") rfl).2 (by decide) (by decide)⟩

/-- C6 witness. -/
theorem archiveThread_status_handling_witness :
    (exClient.archiveThreadRequest "999").body =
      some (Json.obj [("archived", Json.bool true)]) ∧
    exClient.ArchiveThread exEnv403 "999" =
      (some (DiscordError.apiError "discord API error" 403
          (Json.str "forbidden")),
       [exClient.archiveThreadRequest "999"]) :=
  ⟨(archiveThread_status_handling exClient exEnv403 "999" 403
      (Json.str "forbidden") rfl).1,
   (archiveThread_status_handling exClient exEnv403 "999" 403
      (Json.str "forbidden") rfl).2.2 (by decide)⟩

/-- C7 witness. -/
theorem requests_authenticated_witness :
    goodHeaders exClient exClient.fetchChannelRequest :=
  (requests_authenticated exClient exEnvTagA "repoA" "Issue 1" "999" "999"
      exMessage exMessage []).1
    exClient.fetchChannelRequest (List.mem_cons_self _ _)

/-- C8 witness. -/
theorem getOrCreateRepoTag_read_phase_atomic_witness :
    (∃ e, (exClient.GetOrCreateRepoTag exEnvDown "repoA").1 = ("", some e)) ∧
    (exClient.GetOrCreateRepoTag exEnvDown "repoA").2 =
      [exClient.fetchChannelRequest] ∧
    countMethod (exClient.GetOrCreateRepoTag exEnvDown "repoA").2 "PATCH" = 0 :=
  getOrCreateRepoTag_read_phase_atomic exClient exEnvDown "repoA" (Or.inl rfl)

/-- C9 counterexample: an empty JSON array is a valid JSON body with no
id field, yet `CreateThread` on a 201 response carrying it returns a
decode error, not the empty string with no error. -/
theorem createThread_no_id_field_cex :
    jsonField (Json.arr []) "id" = none ∧
    (exClient.CreateThread exEnvArr "Issue 1" exMessage []).1 =
      ("", some (DiscordError.decodeError "failed to parse response")) ∧
    (exClient.CreateThread exEnvArr "Issue 1" exMessage []).1.2 ≠ none := by
  refine ⟨rfl, rfl, ?_⟩
  intro h
  exact Option.noConfusion h

/-- C9 witness. -/
theorem createThread_id_not_validated_witness :
    (exClient.CreateThread exEnv201NoId "Issue 1" exMessage []).1 =
      ("", none) :=
  createThread_id_not_validated exClient exEnv201NoId "Issue 1" exMessage []
    [("name", Json.str "Issue 1")] { ID := "", Name := "Issue 1" }
    rfl (Or.inl rfl) rfl

/-- C10 witness. -/
theorem getOrCreateRepoTag_first_match_witness :
    (exClient.GetOrCreateRepoTag exEnvDup "repoA").1 = (exTagA.ID, none) :=
  (getOrCreateRepoTag_first_match exClient "repoA" [] [exTagA2] exTagA
      (by simp) rfl ⟨exTagA2, List.mem_cons_self _ _, rfl⟩).1
    exEnvDup (marshalPatchBody [exTagA, exTagA2])
    { AvailableTags := [exTagA, exTagA2] } rfl rfl rfl

end DiscordBridge
